import Mathlib

/-!
# Verification of the FLANN C-ABI wrapper (`src/cpp/flann.cpp`)

Shallow embedding of the C wrapper layer of the FLANN library.  C `int` is
modelled as `Int`, C `float` as `Rat` (every operation the wrapper performs on
floats is a copy or a comparison, never arithmetic, so no rounding is lost),
C pointers that may be `NULL` as `Option`, and C++ exceptions as explicit
error branches.  Side effects (logger calls, re-seeding the global random
generator) are modelled as an explicit trace of `Effect` events.

The index structures, the autotuner and the search routines live outside the
wrapper file; where the wrapper calls into them the embedding either takes
their outcome as an explicit oracle argument (universally quantified in the
theorems) or models them from the specification, as noted on each definition.
-/

namespace Flann

/-- A value stored in a `Params` map: the C++ `Any` holds an `int`, a `float`
or a `const char*`; a cast to a different type than the stored one throws. -/
inductive ParamValue where
  | pInt (i : Int)
  | pFloat (r : Rat)
  | pStr (s : String)
deriving DecidableEq, Repr

/-- The C++ `Params` map (`std::map<std::string, Any>`), embedded as an
association list; all keys the wrapper writes are distinct, so first-match
lookup coincides with map semantics. -/
abbrev Params := List (String × ParamValue)

/-- First-match lookup in a `Params` map; `none` models a missing key. -/
def paramsFind : Params → String → Option ParamValue
  | [], _ => none
  | (k, v) :: rest, key => if k = key then some v else paramsFind rest key

/-- The C++ cast `(int)params[key]`: succeeds only when the stored `Any`
holds an `int`; a missing key or a differently-typed value throws (`none`). -/
def paramsGetInt (p : Params) (key : String) : Option Int :=
  match paramsFind p key with
  | some (ParamValue.pInt i) => some i
  | _ => none

/-- The C++ cast `(float)params[key]`. -/
def paramsGetFloat (p : Params) (key : String) : Option Rat :=
  match paramsFind p key with
  | some (ParamValue.pFloat r) => some r
  | _ => none

/-- The C++ cast `(const char*)params[key]`. -/
def paramsGetStr (p : Params) (key : String) : Option String :=
  match paramsFind p key with
  | some (ParamValue.pStr s) => some s
  | _ => none

/-- The static table `algos` of flann.cpp (five entries, indexed by the
`flann_algorithm_t` enum value; `LINEAR = 0`). -/
def algos : List String := ["linear", "kdtree", "kmeans", "composite", "vptree"]

/-- The static table `centers_algos` of flann.cpp (three entries, indexed by
the `flann_centers_init_t` enum value; `CENTERS_RANDOM = 0`). -/
def centers_algos : List String := ["random", "gonzales", "kmeanspp"]

/-- The C struct `FLANNParameters`.  Enum fields (`algorithm`,
`centers_init`) are their integer values. -/
structure FLANNParameters where
  algorithm : Int
  checks : Int
  cb_index : Rat
  trees : Int
  branching : Int
  iterations : Int
  centers_init : Int
  target_precision : Rat
  build_weight : Rat
  memory_weight : Rat
  sample_fraction : Rat
  log_level : Int
  log_destination : Option String
  random_seed : Int
deriving DecidableEq, Repr

/-- flann.cpp `parametersToParams`: fills the map from the struct.  The
`centers-init` key is always written (`"random"` when the `centers_init`
field is not a valid index into `centers_algos`); the `algorithm` key is
written only when the `algorithm` field is a valid index into `algos`. -/
def parametersToParams (parameters : FLANNParameters) : Params :=
  [("checks", ParamValue.pInt parameters.checks),
   ("cb_index", ParamValue.pFloat parameters.cb_index),
   ("trees", ParamValue.pInt parameters.trees),
   ("max-iterations", ParamValue.pInt parameters.iterations),
   ("branching", ParamValue.pInt parameters.branching),
   ("target-precision", ParamValue.pFloat parameters.target_precision),
   ("centers-init", ParamValue.pStr
      (if 0 ≤ parameters.centers_init ∧
          parameters.centers_init < (centers_algos.length : Int)
       then centers_algos.getD parameters.centers_init.toNat ""
       else "random"))]
  ++ (if 0 ≤ parameters.algorithm ∧
         parameters.algorithm < (algos.length : Int)
      then [("algorithm", ParamValue.pStr (algos.getD parameters.algorithm.toNat ""))]
      else [])

/-- Index of the first entry of `table` equal to `s` (the linear scans of
`paramsToParameters`; the C++ pointer comparison against entries of the one
static table is string equality, as the spec directs). -/
def tableIndex : List String → String → Option Nat
  | [], _ => none
  | t :: rest, s => if t = s then some 0 else (tableIndex rest s).map (· + 1)

/-- The scan loops of `paramsToParameters`: a missing key or a non-string
value matches no entry (the thrown cast is caught and the loop continues),
leaving the default enum value `dflt`. -/
def tableLookup (table : List String) (v : Option String) (dflt : Int) : Int :=
  match v with
  | none => dflt
  | some s =>
    match tableIndex table s with
    | none => dflt
    | some i => Int.ofNat i

/-- flann.cpp `paramsToParameters`: the local `FLANNParameters p` is a POD
declared without an initializer, so every field the function does not assign
holds an indeterminate value; `junk` stands for that indeterminate initial
content.  Each `(int)`/`(float)` cast is wrapped in `try/catch` with the
defaults of the source (`-1`, and `0.4` for `cb_index`); `centers_init`
defaults to `CENTERS_RANDOM = 0` and `algorithm` to `LINEAR = 0`. -/
def paramsToParameters (junk : FLANNParameters) (params : Params) : FLANNParameters :=
  { junk with
    checks := (paramsGetInt params "checks").getD (-1)
    cb_index := (paramsGetFloat params "cb_index").getD (2/5)
    trees := (paramsGetInt params "trees").getD (-1)
    iterations := (paramsGetInt params "max-iterations").getD (-1)
    branching := (paramsGetInt params "branching").getD (-1)
    target_precision := (paramsGetFloat params "target-precision").getD (-1)
    centers_init := tableLookup centers_algos (paramsGetStr params "centers-init") 0
    algorithm := tableLookup algos (paramsGetStr params "algorithm") 0 }

/-- Observable side effects of the wrapper: logger configuration, log
messages, re-seeding the global random generator, and the invocation of the
autotuner (`estimateBuildIndexParams`). -/
inductive Effect where
  | logVerbosity (level : Int)
  | logDestination (dest : Option String)
  | seedRandom (seed : Int)
  | autotune
  | logInfo (msg : String)
  | logError (msg : String)
deriving DecidableEq, Repr

/-- flann.cpp `init_flann_parameters`: a null pointer does nothing; otherwise
the logger verbosity is set (only for a non-negative level, the guard inside
`flann_log_verbosity`), the log destination is set, and the global random
generator is re-seeded only when `random_seed > 0`. -/
def init_flann_parameters (p : Option FLANNParameters) : List Effect :=
  match p with
  | none => []
  | some p =>
    (if 0 ≤ p.log_level then [Effect.logVerbosity p.log_level] else [])
    ++ [Effect.logDestination p.log_destination]
    ++ (if 0 < p.random_seed then [Effect.seedRandom p.random_seed] else [])

/-- State of the global random generator (its current seed) after replaying a
trace: each `seedRandom s` event replaces the state by `s`, every other
event leaves it unchanged. -/
def runSeed (g : Int) : List Effect → Int
  | [] => g
  | Effect.seedRandom s :: rest => runSeed s rest
  | _ :: rest => runSeed g rest

/-- Modelled from the spec: `create_index(algorithm_name, dataset, params)`
(§4.10) succeeds for the five known algorithm names and fails with "unknown
algorithm" otherwise.  The argument is the result of the C++ cast
`(const char*)params["algorithm"]` at the call site; `none` models that cast
throwing on a missing or non-string value. -/
def create_index (name : Option String) : Except String Nat :=
  match name with
  | none => Except.error "Cannot convert parameter to string"
  | some s => if s ∈ algos then Except.ok 1 else Except.error "Unknown algorithm"

/-- Oracle for the calls the wrapper makes outside the wrapper file during an
autotuned build: `autotuneResult` is the `Params` map after
`estimateBuildIndexParams` and `estimateSearchParams` (an `error` models any
exception thrown while autotuning or building); `junk` is the indeterminate
initial content of the local struct inside `paramsToParameters`. -/
structure BuildEnv where
  autotuneResult : Except String Params
  junk : FLANNParameters
deriving Repr

/-- Outcome of `flann_build_index`: the returned handle (`none` = `NULL`),
the final content of the caller's struct `*flann_params` (`none` when the
passed pointer was null, so nothing was written), the value written through
the `speedup` pointer if any, and the effect trace. -/
structure BuildResult where
  handle : Option Nat
  outParams : Option FLANNParameters
  speedupOut : Option Rat
  trace : List Effect
deriving DecidableEq, Repr

/-- flann.cpp `flann_build_index`.  `speedupNonNull` records whether the
caller passed a non-null `speedup` pointer.  Control flow of the source:
null `flann_params` throws; `target_precision < 0` builds directly from
`parametersToParams`; otherwise the weights are validated, the autotuner
runs, the index is created from the tuned parameters, `*flann_params` is
overwritten by `paramsToParameters(params)` and then `target_precision`,
`build_weight`, `memory_weight`, `sample_fraction` are restored from the
values read at entry, and finally `*speedup = float(params["speedup"])`
(whose cast throws when the key is missing, after the struct was already
overwritten).  Every `runtime_error` is caught, logged, and turned into a
`NULL` return. -/
def flann_build_index (speedupNonNull : Bool) (fp : Option FLANNParameters)
    (env : BuildEnv) : BuildResult :=
  match fp with
  | none =>
    { handle := none, outParams := none, speedupOut := none
      trace := [Effect.logError "The index_params agument must be non-null"] }
  | some fp =>
    let t0 := init_flann_parameters (some fp)
    if fp.target_precision < 0 then
      match create_index (paramsGetStr (parametersToParams fp) "algorithm") with
      | Except.error m =>
        { handle := none, outParams := some fp, speedupOut := none
          trace := t0 ++ [Effect.logInfo "Building index", Effect.logError m] }
      | Except.ok h =>
        { handle := some h, outParams := some fp, speedupOut := none
          trace := t0 ++ [Effect.logInfo "Building index",
                          Effect.logInfo "Building index took"] }
    else
      if fp.build_weight < 0 then
        { handle := none, outParams := some fp, speedupOut := none
          trace := t0 ++ [Effect.logError "The index_params.build_weight must be positive."] }
      else if fp.memory_weight < 0 then
        { handle := none, outParams := some fp, speedupOut := none
          trace := t0 ++ [Effect.logError "The index_params.memory_weight must be positive."] }
      else
        match env.autotuneResult with
        | Except.error m =>
          { handle := none, outParams := some fp, speedupOut := none
            trace := t0 ++ [Effect.autotune, Effect.logError m] }
        | Except.ok params =>
          match create_index (paramsGetStr params "algorithm") with
          | Except.error m =>
            { handle := none, outParams := some fp, speedupOut := none
              trace := t0 ++ [Effect.autotune, Effect.logError m] }
          | Except.ok h =>
            let newFp :=
              { paramsToParameters env.junk params with
                target_precision := fp.target_precision
                build_weight := fp.build_weight
                memory_weight := fp.memory_weight
                sample_fraction := fp.sample_fraction }
            if speedupNonNull then
              match paramsGetFloat params "speedup" with
              | none =>
                { handle := none, outParams := some newFp, speedupOut := none
                  trace := t0 ++ [Effect.autotune,
                                  Effect.logError "Cannot convert parameter to float"] }
              | some v =>
                { handle := some h, outParams := some newFp, speedupOut := some v
                  trace := t0 ++ [Effect.autotune] }
            else
              { handle := some h, outParams := some newFp, speedupOut := none
                trace := t0 ++ [Effect.autotune] }

/-- Outcome of `flann_find_nearest_neighbors`: the returned status, the final
content of the caller's struct, and the effect trace. -/
structure FnnResult where
  ret : Int
  outParams : FLANNParameters
  trace : List Effect
deriving DecidableEq, Repr

/-- flann.cpp `flann_find_nearest_neighbors`.  The struct pointer must be
non-null (the source dereferences it unconditionally).  Same two build
branches as `flann_build_index`, but no weight validation and no restoration
of the caller's fields after the autotuned overwrite; the search itself
(`search_for_neighbors`) is outside the wrapper and modelled as succeeding. -/
def flann_find_nearest_neighbors (fp : FLANNParameters) (env : BuildEnv) : FnnResult :=
  let t0 := init_flann_parameters (some fp)
  if fp.target_precision < 0 then
    match create_index (paramsGetStr (parametersToParams fp) "algorithm") with
    | Except.error m =>
      { ret := -1, outParams := fp
        trace := t0 ++ [Effect.logInfo "Building index", Effect.logError m] }
    | Except.ok _ =>
      { ret := 0, outParams := fp
        trace := t0 ++ [Effect.logInfo "Building index",
                        Effect.logInfo "Building index took",
                        Effect.logInfo "Finished creating the index.",
                        Effect.logInfo "Searching for nearest neighbors."] }
  else
    match env.autotuneResult with
    | Except.error m =>
      { ret := -1, outParams := fp
        trace := t0 ++ [Effect.logInfo "Build index", Effect.autotune, Effect.logError m] }
    | Except.ok params =>
      match create_index (paramsGetStr params "algorithm") with
      | Except.error m =>
        { ret := -1, outParams := fp
          trace := t0 ++ [Effect.logInfo "Build index", Effect.autotune, Effect.logError m] }
      | Except.ok _ =>
        { ret := 0, outParams := paramsToParameters env.junk params
          trace := t0 ++ [Effect.logInfo "Build index", Effect.autotune,
                          Effect.logInfo "Finished creating the index.",
                          Effect.logInfo "Searching for nearest neighbors."] }

/-- flann.cpp `flann_find_nearest_neighbors_index`: a null handle throws
"Invalid index" (caught, logged, `-1`); otherwise the search runs against
the live index and the function returns `0`. -/
def flann_find_nearest_neighbors_index (index : Option Nat)
    (fp : Option FLANNParameters) : Int × List Effect :=
  let t0 := init_flann_parameters fp
  match index with
  | none => (-1, t0 ++ [Effect.logError "Invalid index"])
  | some _ => (0, t0 ++ [Effect.logInfo "Searching took"])

/-- Outcome of `flann_radius_search`: the returned count (or `-1`), the
writes performed into the caller's `indices`/`dists` arrays as a list of
(array position, index value, distance value) triples in program order, and
the effect trace. -/
structure RadiusResult where
  ret : Int
  written : List (Nat × Int × Rat)
  trace : List Effect
deriving DecidableEq, Repr

/-- flann.cpp `flann_radius_search`.  `found` is the oracle for the content
of the `RadiusResultSet` after `index->findNeighbors` (its parallel
`getNeighbors()` / `getDistances()` arrays, of length `resultSet.size()`).
A null handle throws "Invalid index" (caught, logged, `-1`).  Otherwise the
source loop `for (i = 0; i < count_nn; ++i)` copies every entry of the
result set into the output arrays — the `max_nn` argument is never consulted
— and `count_nn` is returned. -/
def flann_radius_search (index : Option Nat) (found : List (Int × Rat))
    (max_nn : Int) (fp : Option FLANNParameters) : RadiusResult :=
  let t0 := init_flann_parameters fp
  match index with
  | none => { ret := -1, written := [], trace := t0 ++ [Effect.logError "Invalid index"] }
  | some _ =>
    { ret := (found.length : Int)
      written := (List.range found.length).map
        (fun i => (i, (found.getD i (0, 0)).1, (found.getD i (0, 0)).2))
      trace := t0 }

/-- flann.cpp `flann_free_index`: a null handle throws "Invalid index"
(caught, logged, `-1`); a live handle is deleted and `0` returned. -/
def flann_free_index (index : Option Nat) (fp : Option FLANNParameters) :
    Int × List Effect :=
  let t0 := init_flann_parameters fp
  match index with
  | none => (-1, t0 ++ [Effect.logError "Invalid index"])
  | some _ => (0, t0)

/-! ## Concrete values used to instantiate the theorems -/

/-- A parameter block whose `random_seed` is zero. -/
def fpSeedZero : FLANNParameters :=
  { algorithm := 1, checks := 32, cb_index := 0, trees := 4, branching := 32
    iterations := 11, centers_init := 0, target_precision := -1
    build_weight := 0, memory_weight := 0, sample_fraction := 0
    log_level := 0, log_destination := none, random_seed := 0 }

/-- A parameter block whose `centers_init` and `algorithm` fields are outside
their tables. -/
def fpOutOfRange : FLANNParameters :=
  { fpSeedZero with centers_init := 5, algorithm := 7 }

/-- A map holding only an `"algorithm"` key: every key the defaults apply to
is missing. -/
def cexParams : Params := [("algorithm", ParamValue.pStr "linear")]

/-- A parameter block with in-range `algorithm` and `centers_init` used to
instantiate the roundtrip. -/
def fpRound : FLANNParameters :=
  { algorithm := 2, checks := 64, cb_index := 2, trees := 8, branching := 16
    iterations := 5, centers_init := 1, target_precision := 1
    build_weight := 0, memory_weight := 0, sample_fraction := 0
    log_level := 1, log_destination := none, random_seed := 1 }

/-- A tuned parameter map of the shape the autotuner returns: winning
algorithm and build parameters, augmented with `checks` and `speedup`. -/
def tunedParams : Params :=
  [("algorithm", ParamValue.pStr "kmeans"), ("checks", ParamValue.pInt 120),
   ("branching", ParamValue.pInt 32), ("max-iterations", ParamValue.pInt 5),
   ("centers-init", ParamValue.pStr "random"), ("cb_index", ParamValue.pFloat 1),
   ("speedup", ParamValue.pFloat 7)]

/-- A build environment whose autotune outcome succeeds. -/
def envOk : BuildEnv := { autotuneResult := Except.ok tunedParams, junk := fpSeedZero }

/-- A build environment whose autotune outcome throws. -/
def envErr : BuildEnv := { autotuneResult := Except.error "autotune failed", junk := fpSeedZero }

/-- A parameter block requesting autotuning with a negative `build_weight`. -/
def fpNegBW : FLANNParameters :=
  { fpSeedZero with target_precision := 1, build_weight := -1 }

/-- A parameter block with a negative `build_weight` but autotuning disabled
(`target_precision < 0`). -/
def fpDirectNegBW : FLANNParameters :=
  { fpSeedZero with target_precision := -1, build_weight := -1 }

/-! ## Theorems -/

/-- `init_flann_parameters` never emits an autotune event. -/
theorem autotune_not_mem_init (fp : Option FLANNParameters) :
    Effect.autotune ∉ init_flann_parameters fp := by
  match fp with
  | none => simp [init_flann_parameters]
  | some p =>
    by_cases h1 : 0 ≤ p.log_level <;> by_cases h2 : 0 < p.random_seed <;>
      simp [init_flann_parameters, h1, h2]

/-- C6: with a null index handle, `flann_find_nearest_neighbors_index`,
`flann_radius_search` and `flann_free_index` each catch the invalid-index
failure and return `-1`, and `flann_free_index` returns `0` on a live
handle. -/
theorem null_index_sentinels (fp : Option FLANNParameters)
    (found : List (Int × Rat)) (max_nn : Int) :
    (flann_find_nearest_neighbors_index none fp).1 = -1
    ∧ (flann_radius_search none found max_nn fp).ret = -1
    ∧ (flann_free_index none fp).1 = -1
    ∧ ∀ idx : Nat, (flann_free_index (some idx) fp).1 = 0 :=
  ⟨rfl, rfl, rfl, fun _ => rfl⟩

/-- C8: `init_flann_parameters` re-seeds the global generator exactly when
`random_seed > 0`; for a non-positive seed the generator state is left
unchanged by the call. -/
theorem init_seed_iff (p : FLANNParameters) :
    ((∃ s, Effect.seedRandom s ∈ init_flann_parameters (some p)) ↔ 0 < p.random_seed)
    ∧ (p.random_seed ≤ 0 → ∀ g : Int, runSeed g (init_flann_parameters (some p)) = g) := by
  by_cases h1 : 0 ≤ p.log_level <;> by_cases h2 : 0 < p.random_seed <;>
    simp [init_flann_parameters, h1, h2, runSeed]

/-- C8 witness: a parameter block with `random_seed = 0` produces no
`seedRandom` event and leaves a generator state `7` at `7`. -/
theorem init_seed_iff_witness :
    ¬ (∃ s, Effect.seedRandom s ∈ init_flann_parameters (some fpSeedZero))
    ∧ runSeed 7 (init_flann_parameters (some fpSeedZero)) = 7 :=
  ⟨fun h => by exact absurd ((init_seed_iff fpSeedZero).1.mp h) (by decide),
   (init_seed_iff fpSeedZero).2 (by decide) 7⟩

/-- C10: an out-of-range `centers_init` makes `parametersToParams` write
`"random"` under `"centers-init"`, while an out-of-range `algorithm` leaves
the `"algorithm"` key unset in the produced map. -/
theorem out_of_range_tables (fp : FLANNParameters) :
    (fp.centers_init < 0 ∨ 3 ≤ fp.centers_init →
      paramsFind (parametersToParams fp) "centers-init" = some (ParamValue.pStr "random"))
    ∧ (fp.algorithm < 0 ∨ 5 ≤ fp.algorithm →
      paramsFind (parametersToParams fp) "algorithm" = none) := by
  constructor
  · intro h
    have hc : ¬(0 ≤ fp.centers_init ∧ fp.centers_init < (centers_algos.length : Int)) := by
      simp only [centers_algos, List.length]
      omega
    simp [parametersToParams, paramsFind, hc]
  · intro h
    have ha : ¬(0 ≤ fp.algorithm ∧ fp.algorithm < (algos.length : Int)) := by
      simp only [algos, List.length]
      omega
    simp [parametersToParams, paramsFind, ha]

/-- C10 witness: with `centers_init = 5` and `algorithm = 7` the map holds
`"random"` under `"centers-init"` and no `"algorithm"` key. -/
theorem out_of_range_tables_witness :
    paramsFind (parametersToParams fpOutOfRange) "centers-init"
      = some (ParamValue.pStr "random")
    ∧ paramsFind (parametersToParams fpOutOfRange) "algorithm" = none :=
  ⟨(out_of_range_tables fpOutOfRange).1 (Or.inr (by decide)),
   (out_of_range_tables fpOutOfRange).2 (Or.inr (by decide))⟩

/-- C4 counterexample: on a map holding only an `"algorithm"` key,
`paramsToParameters` fills `checks`, `trees` and `iterations` with `-1`, not
with the spec-table defaults 32, 4 and 11. -/
theorem missing_key_defaults_cex :
    paramsFind cexParams "checks" = none
    ∧ paramsFind cexParams "trees" = none
    ∧ paramsFind cexParams "max-iterations" = none
    ∧ (paramsToParameters fpSeedZero cexParams).checks = -1
    ∧ (paramsToParameters fpSeedZero cexParams).trees = -1
    ∧ (paramsToParameters fpSeedZero cexParams).iterations = -1
    ∧ (paramsToParameters fpSeedZero cexParams).checks ≠ 32
    ∧ (paramsToParameters fpSeedZero cexParams).trees ≠ 4
    ∧ (paramsToParameters fpSeedZero cexParams).iterations ≠ 11 := by
  decide

/-- C4 (amended): for every map from which a key is missing,
`paramsToParameters` fills the corresponding field with the source default:
`checks` with −1, `cb_index` with 0.4, `trees` with −1, `max-iterations`
with −1, and `centers-init` with random (enum value 0). -/
theorem missing_key_defaults (junk : FLANNParameters) (p : Params) :
    (paramsFind p "checks" = none → (paramsToParameters junk p).checks = -1)
    ∧ (paramsFind p "cb_index" = none → (paramsToParameters junk p).cb_index = 2/5)
    ∧ (paramsFind p "trees" = none → (paramsToParameters junk p).trees = -1)
    ∧ (paramsFind p "max-iterations" = none → (paramsToParameters junk p).iterations = -1)
    ∧ (paramsFind p "centers-init" = none → (paramsToParameters junk p).centers_init = 0) := by
  refine ⟨fun h => ?_, fun h => ?_, fun h => ?_, fun h => ?_, fun h => ?_⟩ <;>
    simp [paramsToParameters, paramsGetInt, paramsGetFloat, paramsGetStr, tableLookup, h]

/-- C4 witness: the amended defaults at the concrete map holding only an
`"algorithm"` key. -/
theorem missing_key_defaults_witness :
    (paramsToParameters fpOutOfRange cexParams).checks = -1
    ∧ (paramsToParameters fpOutOfRange cexParams).cb_index = 2/5
    ∧ (paramsToParameters fpOutOfRange cexParams).trees = -1
    ∧ (paramsToParameters fpOutOfRange cexParams).iterations = -1
    ∧ (paramsToParameters fpOutOfRange cexParams).centers_init = 0 :=
  ⟨(missing_key_defaults fpOutOfRange cexParams).1 rfl,
   (missing_key_defaults fpOutOfRange cexParams).2.1 rfl,
   (missing_key_defaults fpOutOfRange cexParams).2.2.1 rfl,
   (missing_key_defaults fpOutOfRange cexParams).2.2.2.1 rfl,
   (missing_key_defaults fpOutOfRange cexParams).2.2.2.2 rfl⟩

/-- C1: `flann_radius_search` returns the count of points in the result set,
but the copy loop writes all `count_nn` entries into the output arrays: with
a result set of 3 points and `max_nn = 2` it performs a write at array
position 2, beyond the first `max_nn` entries the claim permits. -/
theorem radius_search_ignores_max_nn :
    (flann_radius_search (some 1) [(10, 0), (11, 1), (12, 2)] 2 none).ret = 3
    ∧ (flann_radius_search (some 1) [(10, 0), (11, 1), (12, 2)] 2 none).written
        = [(0, 10, 0), (1, 11, 1), (2, 12, 2)]
    ∧ ∃ w ∈ (flann_radius_search (some 1) [(10, 0), (11, 1), (12, 2)] 2 none).written,
        2 ≤ w.1 := by
  decide

/-- Scanning `centers_algos` for the entry stored at a valid index recovers
that index. -/
theorem centers_table_roundtrip (i : Int) (h0 : 0 ≤ i) (h3 : i < 3) :
    tableLookup centers_algos (some (centers_algos[i.toNat]?.getD "")) 0 = i := by
  interval_cases i <;> decide

/-- Scanning `algos` for the entry stored at a valid index recovers that
index. -/
theorem algos_table_roundtrip (i : Int) (h0 : 0 ≤ i) (h5 : i < 5) :
    tableLookup algos (some (algos[i.toNat]?.getD "")) 0 = i := by
  interval_cases i <;> decide

/-- C3: for a parameter block whose `algorithm` and `centers_init` fields are
valid indices into their tables, `paramsToParameters ∘ parametersToParams`
preserves `checks`, `cb_index`, `trees`, `iterations` (`max-iterations`),
`branching`, `target_precision`, `centers_init` and `algorithm`. -/
theorem params_roundtrip (junk fp : FLANNParameters)
    (ha0 : 0 ≤ fp.algorithm) (ha5 : fp.algorithm < 5)
    (hc0 : 0 ≤ fp.centers_init) (hc3 : fp.centers_init < 3) :
    (paramsToParameters junk (parametersToParams fp)).checks = fp.checks
    ∧ (paramsToParameters junk (parametersToParams fp)).cb_index = fp.cb_index
    ∧ (paramsToParameters junk (parametersToParams fp)).trees = fp.trees
    ∧ (paramsToParameters junk (parametersToParams fp)).iterations = fp.iterations
    ∧ (paramsToParameters junk (parametersToParams fp)).branching = fp.branching
    ∧ (paramsToParameters junk (parametersToParams fp)).target_precision = fp.target_precision
    ∧ (paramsToParameters junk (parametersToParams fp)).centers_init = fp.centers_init
    ∧ (paramsToParameters junk (parametersToParams fp)).algorithm = fp.algorithm := by
  have ha : 0 ≤ fp.algorithm ∧ fp.algorithm < (algos.length : Int) := by
    simp only [algos, List.length]
    omega
  have hc : 0 ≤ fp.centers_init ∧ fp.centers_init < (centers_algos.length : Int) := by
    simp only [centers_algos, List.length]
    omega
  simp only [paramsToParameters, parametersToParams, paramsGetInt, paramsGetFloat,
    paramsGetStr, paramsFind, if_pos ha, if_pos hc]
  simp
  exact ⟨centers_table_roundtrip fp.centers_init hc0 hc3,
    algos_table_roundtrip fp.algorithm ha0 ha5⟩

/-- C3 witness: the roundtrip at a concrete parameter block with
`algorithm = kmeans (2)` and `centers_init = gonzales (1)`. -/
theorem params_roundtrip_witness :
    (paramsToParameters fpSeedZero (parametersToParams fpRound)).checks = fpRound.checks
    ∧ (paramsToParameters fpSeedZero (parametersToParams fpRound)).cb_index = fpRound.cb_index
    ∧ (paramsToParameters fpSeedZero (parametersToParams fpRound)).trees = fpRound.trees
    ∧ (paramsToParameters fpSeedZero (parametersToParams fpRound)).iterations = fpRound.iterations
    ∧ (paramsToParameters fpSeedZero (parametersToParams fpRound)).branching = fpRound.branching
    ∧ (paramsToParameters fpSeedZero (parametersToParams fpRound)).target_precision
        = fpRound.target_precision
    ∧ (paramsToParameters fpSeedZero (parametersToParams fpRound)).centers_init
        = fpRound.centers_init
    ∧ (paramsToParameters fpSeedZero (parametersToParams fpRound)).algorithm
        = fpRound.algorithm :=
  params_roundtrip fpSeedZero fpRound (by decide) (by decide) (by decide) (by decide)

/-- C2 counterexample: a call with `target_precision = 1 ≥ 0` but a negative
`build_weight` never reaches the autotuner, refuting "the autotuner is
invoked if and only if `target_precision ≥ 0`". -/
theorem build_autotune_iff_cex :
    0 ≤ fpNegBW.target_precision
    ∧ Effect.autotune ∉ (flann_build_index false (some fpNegBW) envOk).trace := by
  decide

/-- C2 (amended): the autotuner is invoked iff `target_precision ≥ 0` and the
weight validation passes (`build_weight ≥ 0` and `memory_weight ≥ 0`); when
`target_precision < 0` the index is built directly from the caller-supplied
parameters, independently of anything the autotuner would return. -/
theorem build_autotune_iff_weights (s : Bool) (fp : FLANNParameters) (env : BuildEnv) :
    (Effect.autotune ∈ (flann_build_index s (some fp) env).trace ↔
      0 ≤ fp.target_precision ∧ 0 ≤ fp.build_weight ∧ 0 ≤ fp.memory_weight)
    ∧ (fp.target_precision < 0 → ∀ env' : BuildEnv,
        flann_build_index s (some fp) env = flann_build_index s (some fp) env') := by
  constructor
  · by_cases htp : fp.target_precision < 0
    · simp only [flann_build_index, if_pos htp]
      cases hcr : create_index (paramsGetStr (parametersToParams fp) "algorithm") <;>
        simp [autotune_not_mem_init (some fp), not_le.mpr htp]
    · by_cases hbw : fp.build_weight < 0
      · simp [flann_build_index, if_neg htp, if_pos hbw,
          autotune_not_mem_init (some fp), not_le.mpr hbw]
      · by_cases hmw : fp.memory_weight < 0
        · simp [flann_build_index, if_neg htp, if_pos hbw, if_neg hbw, if_pos hmw,
            autotune_not_mem_init (some fp), not_le.mpr hmw]
        · simp only [flann_build_index, if_neg htp, if_neg hbw, if_neg hmw]
          cases henv : env.autotuneResult with
          | error m => simp [not_lt.mp htp, not_lt.mp hbw, not_lt.mp hmw]
          | ok params =>
            cases hcr : create_index (paramsGetStr params "algorithm") with
            | error m => simp [hcr, not_lt.mp htp, not_lt.mp hbw, not_lt.mp hmw]
            | ok h =>
              cases s with
              | false => simp [hcr, not_lt.mp htp, not_lt.mp hbw, not_lt.mp hmw]
              | true =>
                cases hsp : paramsGetFloat params "speedup" <;>
                  simp [hcr, hsp, not_lt.mp htp, not_lt.mp hbw, not_lt.mp hmw]
  · intro htp env'
    simp only [flann_build_index, if_pos htp]

/-- C2 witness: with non-negative weights and `target_precision = 0.9` the
autotuner is invoked, and with `target_precision = -1` the result does not
depend on the autotune environment. -/
theorem build_autotune_iff_weights_witness :
    Effect.autotune ∈ (flann_build_index false (some fpRound) envOk).trace
    ∧ flann_build_index false (some fpSeedZero) envOk
        = flann_build_index false (some fpSeedZero) envErr :=
  ⟨(build_autotune_iff_weights false fpRound envOk).1.mpr
     ⟨by decide, by decide, by decide⟩,
   (build_autotune_iff_weights false fpSeedZero envOk).2 (by decide) envErr⟩

/-- C5 counterexample: with autotuning disabled (`target_precision < 0`) a
negative `build_weight` is not rejected; the call succeeds and returns a
non-null handle, refuting the claim for such calls. -/
theorem negative_weight_cex :
    fpDirectNegBW.build_weight < 0
    ∧ (flann_build_index false (some fpDirectNegBW) envOk).handle = some 1 := by
  decide

/-- C5 (amended): for every call with `target_precision ≥ 0` in which
`build_weight` or `memory_weight` is negative, `flann_build_index` fails
with an invalid-argument error (logged) and returns the null handle. -/
theorem negative_weight_rejected (s : Bool) (fp : FLANNParameters) (env : BuildEnv)
    (htp : 0 ≤ fp.target_precision)
    (hw : fp.build_weight < 0 ∨ fp.memory_weight < 0) :
    (flann_build_index s (some fp) env).handle = none
    ∧ ∃ m, Effect.logError m ∈ (flann_build_index s (some fp) env).trace := by
  have htp' : ¬ fp.target_precision < 0 := not_lt.mpr htp
  by_cases hbw : fp.build_weight < 0
  · refine ⟨by simp [flann_build_index, htp', hbw], ?_⟩
    exact ⟨"The index_params.build_weight must be positive.",
      by simp [flann_build_index, htp', hbw]⟩
  · have hmw : fp.memory_weight < 0 := hw.resolve_left hbw
    refine ⟨by simp [flann_build_index, htp', hbw, hmw], ?_⟩
    exact ⟨"The index_params.memory_weight must be positive.",
      by simp [flann_build_index, htp', hbw, hmw]⟩

/-- C5 witness: the rejection at the concrete block with
`target_precision = 1` and `build_weight = -1`. -/
theorem negative_weight_rejected_witness :
    (flann_build_index false (some fpNegBW) envOk).handle = none
    ∧ ∃ m, Effect.logError m ∈ (flann_build_index false (some fpNegBW) envOk).trace :=
  negative_weight_rejected false fpNegBW envOk (by decide) (Or.inl (by decide))

/-- C9: on every successful autotuned build the caller's struct, though
overwritten with the tuned parameters, keeps the caller's original
`target_precision`, `build_weight`, `memory_weight` and `sample_fraction`. -/
theorem autotune_restores_caller_fields (s : Bool) (fp : FLANNParameters) (env : BuildEnv)
    (htp : 0 ≤ fp.target_precision)
    (hs : ((flann_build_index s (some fp) env).handle).isSome = true) :
    ∃ op, (flann_build_index s (some fp) env).outParams = some op
      ∧ op.target_precision = fp.target_precision
      ∧ op.build_weight = fp.build_weight
      ∧ op.memory_weight = fp.memory_weight
      ∧ op.sample_fraction = fp.sample_fraction := by
  have htp' : ¬ fp.target_precision < 0 := not_lt.mpr htp
  simp only [flann_build_index, if_neg htp'] at hs ⊢
  by_cases hbw : fp.build_weight < 0
  · simp [hbw] at hs
  · by_cases hmw : fp.memory_weight < 0
    · simp [hbw, hmw] at hs
    · simp only [if_neg hbw, if_neg hmw] at hs ⊢
      cases henv : env.autotuneResult with
      | error m => simp [henv] at hs
      | ok params =>
        simp only [henv] at hs ⊢
        cases hcr : create_index (paramsGetStr params "algorithm") with
        | error m => simp [hcr] at hs
        | ok h =>
          simp only [hcr] at hs ⊢
          cases s with
          | false => exact ⟨_, rfl, rfl, rfl, rfl, rfl⟩
          | true =>
            cases hsp : paramsGetFloat params "speedup" with
            | none => simp [hsp] at hs
            | some v =>
              simp only [hsp]
              exact ⟨_, rfl, rfl, rfl, rfl, rfl⟩

/-- C9 witness: a concrete successful autotuned build restores the four
caller fields. -/
theorem autotune_restores_caller_fields_witness :
    ∃ op, (flann_build_index false (some fpRound) envOk).outParams = some op
      ∧ op.target_precision = fpRound.target_precision
      ∧ op.build_weight = fpRound.build_weight
      ∧ op.memory_weight = fpRound.memory_weight
      ∧ op.sample_fraction = fpRound.sample_fraction :=
  autotune_restores_caller_fields false fpRound envOk (by decide) (by decide)

/-- C7: a null `FLANNParameters` pointer makes `flann_build_index` return the
null handle (with the error logged), and on any caught failure each entry
point logs the error and returns its documented sentinel: whenever
`flann_build_index` returns the null handle, or an integer-returning entry
point returns `-1`, an error was logged. -/
theorem error_propagation :
    (∀ (s : Bool) (env : BuildEnv),
      (flann_build_index s none env).handle = none
      ∧ ∃ m, Effect.logError m ∈ (flann_build_index s none env).trace)
    ∧ (∀ (s : Bool) (fp : Option FLANNParameters) (env : BuildEnv),
        (flann_build_index s fp env).handle = none →
        ∃ m, Effect.logError m ∈ (flann_build_index s fp env).trace)
    ∧ (∀ (fp : FLANNParameters) (env : BuildEnv),
        (flann_find_nearest_neighbors fp env).ret = -1 →
        ∃ m, Effect.logError m ∈ (flann_find_nearest_neighbors fp env).trace)
    ∧ (∀ (idx : Option Nat) (fp : Option FLANNParameters),
        (flann_find_nearest_neighbors_index idx fp).1 = -1 →
        ∃ m, Effect.logError m ∈ (flann_find_nearest_neighbors_index idx fp).2)
    ∧ (∀ (idx : Option Nat) (found : List (Int × Rat)) (mn : Int)
        (fp : Option FLANNParameters),
        (flann_radius_search idx found mn fp).ret = -1 →
        ∃ m, Effect.logError m ∈ (flann_radius_search idx found mn fp).trace)
    ∧ (∀ (idx : Option Nat) (fp : Option FLANNParameters),
        (flann_free_index idx fp).1 = -1 →
        ∃ m, Effect.logError m ∈ (flann_free_index idx fp).2) := by
  refine ⟨?_, ?_, ?_, ?_, ?_, ?_⟩
  · intro s env
    exact ⟨rfl, "The index_params agument must be non-null", by simp [flann_build_index]⟩
  · intro s fp env h
    match fp with
    | none =>
      exact ⟨"The index_params agument must be non-null", by simp [flann_build_index]⟩
    | some fp =>
      by_cases htp : fp.target_precision < 0
      · simp only [flann_build_index, if_pos htp] at h ⊢
        cases hcr : create_index (paramsGetStr (parametersToParams fp) "algorithm") with
        | error m => exact ⟨m, by simp [hcr]⟩
        | ok hh => simp [hcr] at h
      · simp only [flann_build_index, if_neg htp] at h ⊢
        by_cases hbw : fp.build_weight < 0
        · exact ⟨"The index_params.build_weight must be positive.", by simp [hbw]⟩
        · by_cases hmw : fp.memory_weight < 0
          · exact ⟨"The index_params.memory_weight must be positive.",
              by simp [hbw, hmw]⟩
          · simp only [if_neg hbw, if_neg hmw] at h ⊢
            cases henv : env.autotuneResult with
            | error m => exact ⟨m, by simp [henv]⟩
            | ok params =>
              simp only [henv] at h ⊢
              cases hcr : create_index (paramsGetStr params "algorithm") with
              | error m => exact ⟨m, by simp [hcr]⟩
              | ok hh =>
                simp only [hcr] at h ⊢
                cases s with
                | false => simp at h
                | true =>
                  cases hsp : paramsGetFloat params "speedup" with
                  | none =>
                    exact ⟨"Cannot convert parameter to float", by simp [hsp]⟩
                  | some v => simp [hsp] at h
  · intro fp env h
    by_cases htp : fp.target_precision < 0
    · simp only [flann_find_nearest_neighbors, if_pos htp] at h ⊢
      cases hcr : create_index (paramsGetStr (parametersToParams fp) "algorithm") with
      | error m => exact ⟨m, by simp [hcr]⟩
      | ok hh => simp [hcr] at h
    · simp only [flann_find_nearest_neighbors, if_neg htp] at h ⊢
      cases henv : env.autotuneResult with
      | error m => exact ⟨m, by simp [henv]⟩
      | ok params =>
        simp only [henv] at h ⊢
        cases hcr : create_index (paramsGetStr params "algorithm") with
        | error m => exact ⟨m, by simp [hcr]⟩
        | ok hh => simp [hcr] at h
  · intro idx fp h
    match idx with
    | none => exact ⟨"Invalid index", by simp [flann_find_nearest_neighbors_index]⟩
    | some i => simp [flann_find_nearest_neighbors_index] at h
  · intro idx found mn fp h
    match idx with
    | none => exact ⟨"Invalid index", by simp [flann_radius_search]⟩
    | some i =>
      simp only [flann_radius_search] at h
      omega
  · intro idx fp h
    match idx with
    | none => exact ⟨"Invalid index", by simp [flann_free_index]⟩
    | some i => simp [flann_free_index] at h

/-- C7 witness: the concrete failing calls — a null parameter pointer for
`flann_build_index` and a null handle for `flann_free_index` — log an error
and return the sentinel. -/
theorem error_propagation_witness :
    (∃ m, Effect.logError m ∈ (flann_build_index false none envOk).trace)
    ∧ (∃ m, Effect.logError m ∈ (flann_free_index none (some fpSeedZero)).2) :=
  ⟨error_propagation.2.1 false none envOk rfl,
   error_propagation.2.2.2.2.2 none (some fpSeedZero) rfl⟩

end Flann
